import Mathlib

/-!
Verification of the unified-response builder (src/mod.ts).

The module exports a single factory, `createResponse`, which builds a
uniform response record from a success flag and optional arguments
`(success, statusCode?, message?, data?, error?, metadata?, extraFields?)`.
We embed the JavaScript value discipline shallowly: a `JsVal` covers the
values that can flow into the untyped optional slots, `jsTruthy` is the
JavaScript truthiness test used by the guards in the source, and
`jsObjectKeys` models `Object.keys` (which throws on `null`/`undefined`).

`createResponseJs` is the faithful fallible embedding (the `Object.keys`
call can in principle throw, guarded by the short-circuiting `&&` of the
source); `createResponse` is the total function it refines to.
-/

/-- A JavaScript value as it can appear in the untyped optional slots of
`createResponse`. Objects are modelled as association lists of fields. -/
inductive JsVal where
  | null
  | undef
  | bool (b : Bool)
  | num (n : Int)
  | str (s : String)
  | obj (fields : List (String × JsVal))

/-- The test `v === null` of the source. -/
def JsVal.isNull : JsVal → Bool
  | .null => true
  | _ => false

/-- The test `v === undefined` of the source. -/
def JsVal.isUndef : JsVal → Bool
  | .undef => true
  | _ => false

/-- JavaScript truthiness: `null`, `undefined`, `false`, `0` and `""` are
falsy; every object (empty or not) is truthy. -/
def jsTruthy : JsVal → Bool
  | .null => false
  | .undef => false
  | .bool b => b
  | .num n => decide (n ≠ 0)
  | .str s => decide (s ≠ "")
  | .obj _ => true

/-- The key list of a JavaScript value, as `Object.keys` returns it on the
values it accepts: the field names of an object, the index strings of a
string, and the empty list on booleans and numbers. -/
def jsKeys : JsVal → List String
  | .obj fields => fields.map Prod.fst
  | .str s => (List.range s.length).map toString
  | _ => []

/-- `Object.keys`, including its failure mode: it throws a `TypeError`
when applied to `null` or `undefined`, and otherwise returns `jsKeys`. -/
def jsObjectKeys : JsVal → Except String (List String)
  | .null => Except.error "TypeError: cannot convert null to object"
  | .undef => Except.error "TypeError: cannot convert undefined to object"
  | .bool b => Except.ok (jsKeys (.bool b))
  | .num n => Except.ok (jsKeys (.num n))
  | .str s => Except.ok (jsKeys (.str s))
  | .obj fields => Except.ok (jsKeys (.obj fields))

/-- The `Response` record of src/mod.ts. `data`, `error`, `metadata` and
`extraFields` are optional keys of the returned object: `none` models the
key being absent from the record. -/
structure Response where
  success : Bool
  statusCode : Int
  message : String
  data : Option JsVal
  error : Option JsVal
  metadata : Option JsVal
  timestamp : String
  extraFields : Option JsVal

/-- Faithful embedding of `createResponse` from src/mod.ts, with the
possibility of a thrown `TypeError` made explicit.

`now` is the ISO-8601 UTC rendering of the wall-clock instant read by
`new Date().toISOString()` during the call. `statusCode` and `message`
are `none` when the caller omits them (or passes `undefined`), in which
case the success-derived defaults of the source apply. The four untyped
slots receive a `JsVal` each; `JsVal.undef` triggers their declared
defaults (`null` for the three object slots, `{}` for `extraFields`).
The `if (extraFields && Object.keys(extraFields).length > 0)` guard is
modelled with its short-circuit: `jsObjectKeys` is only consulted when
`extraFields` is truthy. -/
def createResponseJs (now : String) (success : Bool)
    (statusCode : Option Int) (message : Option String)
    (data error metadata extraFields : JsVal) : Except String Response :=
  let sc : Int := statusCode.getD (if success then 200 else 400)
  let msg : String :=
    message.getD (if success then "Request was successful" else "An error occurred")
  let d : JsVal := if data.isUndef then JsVal.null else data
  let e : JsVal := if error.isUndef then JsVal.null else error
  let md : JsVal := if metadata.isUndef then JsVal.null else metadata
  let ef : JsVal := if extraFields.isUndef then JsVal.obj [] else extraFields
  let r : Response :=
    { success := success, statusCode := sc, message := msg,
      data := none, error := none, metadata := none,
      timestamp := now, extraFields := none }
  let r := if !d.isNull && !d.isUndef then { r with data := some d } else r
  let r := if jsTruthy e then { r with error := some e } else r
  let r := if jsTruthy md then { r with metadata := some md } else r
  if jsTruthy ef then
    match jsObjectKeys ef with
    | Except.error exc => Except.error exc
    | Except.ok ks =>
        if ks.length > 0 then Except.ok { r with extraFields := some ef }
        else Except.ok r
  else Except.ok r

/-- The total form of `createResponse`: identical to `createResponseJs`
except that the (unreachable) throwing branch of `Object.keys` is gone,
`jsKeys` standing in for it behind the truthiness guard. -/
def createResponse (now : String) (success : Bool)
    (statusCode : Option Int) (message : Option String)
    (data error metadata extraFields : JsVal) : Response :=
  let sc : Int := statusCode.getD (if success then 200 else 400)
  let msg : String :=
    message.getD (if success then "Request was successful" else "An error occurred")
  let d : JsVal := if data.isUndef then JsVal.null else data
  let e : JsVal := if error.isUndef then JsVal.null else error
  let md : JsVal := if metadata.isUndef then JsVal.null else metadata
  let ef : JsVal := if extraFields.isUndef then JsVal.obj [] else extraFields
  let r : Response :=
    { success := success, statusCode := sc, message := msg,
      data := none, error := none, metadata := none,
      timestamp := now, extraFields := none }
  let r := if !d.isNull && !d.isUndef then { r with data := some d } else r
  let r := if jsTruthy e then { r with error := some e } else r
  let r := if jsTruthy md then { r with metadata := some md } else r
  if jsTruthy ef && (jsKeys ef).length > 0 then { r with extraFields := some ef } else r

/-! ### Field characterisations of `createResponse` -/

theorem createResponse_success (now : String) (s : Bool) (sc : Option Int)
    (msg : Option String) (d e m ef : JsVal) :
    (createResponse now s sc msg d e m ef).success = s := by
  simp [createResponse, apply_ite Response.success]

theorem createResponse_statusCode (now : String) (s : Bool) (sc : Option Int)
    (msg : Option String) (d e m ef : JsVal) :
    (createResponse now s sc msg d e m ef).statusCode
      = sc.getD (if s then 200 else 400) := by
  simp [createResponse, apply_ite Response.statusCode]

theorem createResponse_message (now : String) (s : Bool) (sc : Option Int)
    (msg : Option String) (d e m ef : JsVal) :
    (createResponse now s sc msg d e m ef).message
      = msg.getD (if s then "Request was successful" else "An error occurred") := by
  simp [createResponse, apply_ite Response.message]

theorem createResponse_timestamp (now : String) (s : Bool) (sc : Option Int)
    (msg : Option String) (d e m ef : JsVal) :
    (createResponse now s sc msg d e m ef).timestamp = now := by
  simp [createResponse, apply_ite Response.timestamp]

theorem createResponse_data (now : String) (s : Bool) (sc : Option Int)
    (msg : Option String) (d e m ef : JsVal) :
    (createResponse now s sc msg d e m ef).data
      = if !d.isNull && !d.isUndef then some d else none := by
  cases d <;>
    simp [createResponse, apply_ite Response.data, JsVal.isNull, JsVal.isUndef] <;>
    split_ifs <;> rfl

theorem createResponse_error (now : String) (s : Bool) (sc : Option Int)
    (msg : Option String) (d e m ef : JsVal) :
    (createResponse now s sc msg d e m ef).error
      = if jsTruthy e then some e else none := by
  cases e <;>
    simp [createResponse, apply_ite Response.error, JsVal.isUndef, jsTruthy] <;>
    split_ifs <;> rfl

theorem createResponse_metadata (now : String) (s : Bool) (sc : Option Int)
    (msg : Option String) (d e m ef : JsVal) :
    (createResponse now s sc msg d e m ef).metadata
      = if jsTruthy m then some m else none := by
  cases m <;>
    simp [createResponse, apply_ite Response.metadata, JsVal.isUndef, jsTruthy] <;>
    split_ifs <;> rfl

theorem createResponse_extraFields (now : String) (s : Bool) (sc : Option Int)
    (msg : Option String) (d e m ef : JsVal) :
    (createResponse now s sc msg d e m ef).extraFields
      = if !ef.isUndef && (jsTruthy ef && (jsKeys ef).length > 0) then some ef
        else none := by
  cases ef <;>
    simp [createResponse, apply_ite Response.extraFields, JsVal.isUndef, jsTruthy, jsKeys] <;>
    split_ifs <;> rfl

/-! ### Claims -/

/-- Claim C1: when the caller does not supply `statusCode` the returned
`statusCode` is 200 for `success = true` and 400 for `success = false`;
when the caller does not supply `message` the returned `message` is the
success-derived default; a caller-supplied `statusCode` or `message` is
returned unchanged. -/
theorem claim_C1 (now : String) (s : Bool) (c : Int) (mv : String)
    (sc : Option Int) (msg : Option String) (d e m ef : JsVal) :
    (createResponse now s none msg d e m ef).statusCode = (if s then 200 else 400) ∧
    (createResponse now s (some c) msg d e m ef).statusCode = c ∧
    (createResponse now s sc none d e m ef).message
      = (if s then "Request was successful" else "An error occurred") ∧
    (createResponse now s sc (some mv) d e m ef).message = mv := by
  simp [createResponse_statusCode, createResponse_message]

/-- Claim C2: the returned record carries the `data` key exactly when the
supplied `data` is neither `null` nor `undefined`, and the `error` and
`metadata` keys exactly when the corresponding supplied value is truthy;
a present key holds exactly the supplied value. -/
theorem claim_C2 (now : String) (s : Bool) (sc : Option Int) (msg : Option String)
    (d e m ef : JsVal) :
    (createResponse now s sc msg d e m ef).data
      = (if !d.isNull && !d.isUndef then some d else none) ∧
    (createResponse now s sc msg d e m ef).error
      = (if jsTruthy e then some e else none) ∧
    (createResponse now s sc msg d e m ef).metadata
      = (if jsTruthy m then some m else none) :=
  ⟨createResponse_data now s sc msg d e m ef,
   createResponse_error now s sc msg d e m ef,
   createResponse_metadata now s sc msg d e m ef⟩

/-- Claim C3: `createResponse` implements Ordering A (`statusCode` second,
`message` third): `createResponse false 404 "Not found"` yields
`success = false`, `statusCode = 404`, `message = "Not found"`; and for
every boolean input the returned `success` field equals the input. -/
theorem claim_C3 (now : String) (s : Bool) (sc : Option Int) (msg : Option String)
    (d e m ef : JsVal) :
    (createResponse now false (some 404) (some "Not found")
        JsVal.undef JsVal.undef JsVal.undef JsVal.undef).success = false ∧
    (createResponse now false (some 404) (some "Not found")
        JsVal.undef JsVal.undef JsVal.undef JsVal.undef).statusCode = 404 ∧
    (createResponse now false (some 404) (some "Not found")
        JsVal.undef JsVal.undef JsVal.undef JsVal.undef).message = "Not found" ∧
    (createResponse now s sc msg d e m ef).success = s := by
  refine ⟨?_, ?_, ?_, createResponse_success now s sc msg d e m ef⟩ <;> rfl

/-- Claim C4: a supplied `extraFields` bag is attached verbatim whenever it
has at least one key, and the `extraFields` key is absent when the bag is
not supplied or is empty. -/
theorem claim_C4 (now : String) (s : Bool) (sc : Option Int) (msg : Option String)
    (d e m : JsVal) (l : List (String × JsVal)) :
    (createResponse now s sc msg d e m (JsVal.obj l)).extraFields
      = (if l.isEmpty then none else some (JsVal.obj l)) ∧
    (createResponse now s sc msg d e m JsVal.undef).extraFields = none := by
  constructor
  · rw [createResponse_extraFields]
    cases l <;> simp [JsVal.isUndef, jsTruthy, jsKeys]
  · rw [createResponse_extraFields]
    rfl

/-- Claim C5: the returned `timestamp` is always present and equals the
ISO-8601 rendering of the instant read during the call; no caller argument
influences it. -/
theorem claim_C5 (now : String) (s s2 : Bool) (sc sc2 : Option Int)
    (msg msg2 : Option String) (d e m ef d2 e2 m2 ef2 : JsVal) :
    (createResponse now s sc msg d e m ef).timestamp = now ∧
    (createResponse now s sc msg d e m ef).timestamp
      = (createResponse now s2 sc2 msg2 d2 e2 m2 ef2).timestamp := by
  simp [createResponse_timestamp]

/-- Claim C6 counterexample: a call with `success = false` and a supplied
message returns that message, not `"An error occurred"`, refuting the
universal reading of the claim for `success = false`. -/
theorem claim_C6_counterexample :
    (createResponse "2024-04-27T12:34:56.789Z" false (some 404) (some "Not found")
        JsVal.undef JsVal.undef JsVal.undef JsVal.undef).success = false ∧
    (createResponse "2024-04-27T12:34:56.789Z" false (some 404) (some "Not found")
        JsVal.undef JsVal.undef JsVal.undef JsVal.undef).message = "Not found" ∧
    "Not found" ≠ "An error occurred" := by
  refine ⟨rfl, rfl, ?_⟩
  decide

/-- Claim C6 (amended): when `success = true` and no message is supplied the
returned message is `"Request was successful"`; when `success = false` and
no message is supplied it is `"An error occurred"`. -/
theorem claim_C6 (now : String) (sc : Option Int) (d e m ef : JsVal) :
    (createResponse now true sc none d e m ef).message = "Request was successful" ∧
    (createResponse now false sc none d e m ef).message = "An error occurred" := by
  simp [createResponse_message]

/-- Claim C7: `createResponse` is deterministic apart from the clock: two
calls with identical arguments agree on every field except possibly
`timestamp`, and agree on everything when the clock instants coincide. -/
theorem claim_C7 (now1 now2 : String) (s : Bool) (sc : Option Int)
    (msg : Option String) (d e m ef : JsVal) :
    (createResponse now1 s sc msg d e m ef).success
      = (createResponse now2 s sc msg d e m ef).success ∧
    (createResponse now1 s sc msg d e m ef).statusCode
      = (createResponse now2 s sc msg d e m ef).statusCode ∧
    (createResponse now1 s sc msg d e m ef).message
      = (createResponse now2 s sc msg d e m ef).message ∧
    (createResponse now1 s sc msg d e m ef).data
      = (createResponse now2 s sc msg d e m ef).data ∧
    (createResponse now1 s sc msg d e m ef).error
      = (createResponse now2 s sc msg d e m ef).error ∧
    (createResponse now1 s sc msg d e m ef).metadata
      = (createResponse now2 s sc msg d e m ef).metadata ∧
    (createResponse now1 s sc msg d e m ef).extraFields
      = (createResponse now2 s sc msg d e m ef).extraFields ∧
    (now1 = now2 →
      createResponse now1 s sc msg d e m ef = createResponse now2 s sc msg d e m ef) := by
  refine ⟨?_, ?_, ?_, ?_, ?_, ?_, ?_, ?_⟩
  · simp [createResponse_success]
  · simp [createResponse_statusCode]
  · simp [createResponse_message]
  · simp [createResponse_data]
  · simp [createResponse_error]
  · simp [createResponse_metadata]
  · simp [createResponse_extraFields]
  · intro h
    rw [h]

/-- Witness for claim C7 at a concrete input, the clock-equality hypothesis
discharged by reflexivity. -/
theorem claim_C7_witness :
    createResponse "2024-04-27T12:34:56.789Z" true none none
        JsVal.undef JsVal.undef JsVal.undef JsVal.undef
      = createResponse "2024-04-27T12:34:56.789Z" true none none
        JsVal.undef JsVal.undef JsVal.undef JsVal.undef :=
  (claim_C7 "2024-04-27T12:34:56.789Z" "2024-04-27T12:34:56.789Z" true none none
    JsVal.undef JsVal.undef JsVal.undef JsVal.undef).2.2.2.2.2.2.2 rfl

theorem extraFieldsStep_ok (R : Response) (ef : JsVal) :
    (if jsTruthy ef then
        match jsObjectKeys ef with
        | Except.error exc => Except.error exc
        | Except.ok ks =>
            if ks.length > 0 then Except.ok { R with extraFields := some ef }
            else Except.ok R
      else Except.ok R)
      = Except.ok
          (if jsTruthy ef && (jsKeys ef).length > 0 then { R with extraFields := some ef }
           else R) := by
  cases ef <;> simp [jsTruthy, jsObjectKeys, jsKeys] <;> split_ifs <;> simp_all

/-- Claim C8: `createResponse` is total: the faithful fallible embedding
never takes its error branch and always returns the record computed by the
total function. -/
theorem claim_C8 (now : String) (s : Bool) (sc : Option Int) (msg : Option String)
    (d e m ef : JsVal) :
    createResponseJs now s sc msg d e m ef
      = Except.ok (createResponse now s sc msg d e m ef) := by
  simp only [createResponseJs, createResponse]
  exact extraFieldsStep_ok _ _

/-- Claim C9: invariant of every returned record (for a bag-typed or
absent `extraFields` argument): a present `data` key is never `null` or
`undefined`, present `error` and `metadata` keys are never `null`, and a
present `extraFields` key always holds a bag with at least one entry. -/
theorem claim_C9 (now : String) (s : Bool) (sc : Option Int) (msg : Option String)
    (d e m ef : JsVal)
    (hef : ef = JsVal.undef ∨ ef = JsVal.null ∨ ∃ l, ef = JsVal.obj l) :
    ((createResponse now s sc msg d e m ef).data.all
        (fun v => !v.isNull && !v.isUndef)) = true ∧
    ((createResponse now s sc msg d e m ef).error.all (fun v => !v.isNull)) = true ∧
    ((createResponse now s sc msg d e m ef).metadata.all (fun v => !v.isNull)) = true ∧
    ((createResponse now s sc msg d e m ef).extraFields.all
        (fun v => match v with | JsVal.obj l => !l.isEmpty | _ => false)) = true := by
  refine ⟨?_, ?_, ?_, ?_⟩
  · rw [createResponse_data]
    split_ifs with h
    · simpa [Option.all] using h
    · rfl
  · rw [createResponse_error]
    split_ifs with h
    · cases e <;> simp_all [jsTruthy, JsVal.isNull, Option.all]
    · rfl
  · rw [createResponse_metadata]
    split_ifs with h
    · cases m <;> simp_all [jsTruthy, JsVal.isNull, Option.all]
    · rfl
  · rw [createResponse_extraFields]
    split_ifs with h
    · rcases hef with h1 | h1 | ⟨l, h1⟩ <;> subst h1 <;>
        simp_all [jsTruthy, jsKeys, JsVal.isUndef, Option.all, List.isEmpty]
      cases l <;> simp_all
    · rfl

/-- Witness for claim C9 at a concrete input, the bag-shape hypothesis
discharged with an explicit bag. -/
theorem claim_C9_witness :
    ((createResponse "2024-04-27T12:34:56.789Z" true none none (JsVal.obj [])
        JsVal.null JsVal.undef (JsVal.obj [("a", JsVal.num 1)])).data.all
        (fun v => !v.isNull && !v.isUndef)) = true ∧
    ((createResponse "2024-04-27T12:34:56.789Z" true none none (JsVal.obj [])
        JsVal.null JsVal.undef (JsVal.obj [("a", JsVal.num 1)])).error.all
        (fun v => !v.isNull)) = true ∧
    ((createResponse "2024-04-27T12:34:56.789Z" true none none (JsVal.obj [])
        JsVal.null JsVal.undef (JsVal.obj [("a", JsVal.num 1)])).metadata.all
        (fun v => !v.isNull)) = true ∧
    ((createResponse "2024-04-27T12:34:56.789Z" true none none (JsVal.obj [])
        JsVal.null JsVal.undef (JsVal.obj [("a", JsVal.num 1)])).extraFields.all
        (fun v => match v with | JsVal.obj l => !l.isEmpty | _ => false)) = true :=
  claim_C9 "2024-04-27T12:34:56.789Z" true none none (JsVal.obj []) JsVal.null
    JsVal.undef (JsVal.obj [("a", JsVal.num 1)])
    (Or.inr (Or.inr ⟨[("a", JsVal.num 1)], rfl⟩))

/-- Claim C10: an empty object supplied as `error` or `metadata` is truthy
and therefore included with the empty object as its value, whereas an empty
object supplied as `extraFields` leaves the `extraFields` key out. -/
theorem claim_C10 (now : String) (s : Bool) (sc : Option Int) (msg : Option String)
    (d e m ef : JsVal) :
    jsTruthy (JsVal.obj []) = true ∧
    (createResponse now s sc msg d (JsVal.obj []) m ef).error = some (JsVal.obj []) ∧
    (createResponse now s sc msg d e (JsVal.obj []) ef).metadata = some (JsVal.obj []) ∧
    (createResponse now s sc msg d e m (JsVal.obj [])).extraFields = none := by
  refine ⟨rfl, ?_, ?_, ?_⟩
  · rw [createResponse_error]
    simp [jsTruthy]
  · rw [createResponse_metadata]
    simp [jsTruthy]
  · rw [createResponse_extraFields]
    rfl
